import Mathlib

/-!
Verification development for the gesture-controlled Pong repository.

The definitions below are shallow embeddings of the game's source files:

* `src/constants.ts` — the numeric game constants;
* `src/components/GameCanvas.tsx` (`gameLoop`) — the per-frame physics tick:
  integration, wall bounce, continuous paddle collision, scoring;
* `src/unnamed/part_004` (`gameLoop`) — the revision of the game loop whose
  paddle bounce caps the horizontal speed at
  `initialBallSpeedX * MAX_BALL_SPEED_MULTIPLIER`;
* `src/App.tsx` (`detectGesture`, `onResults`, the calibration effects) — the
  gesture classifier, the gesture-gated calibration tracking, the position
  mapper, and the calibration-commit effect;
* `src/unnamed/part_000` (`isLandmarkVisible`, `detectGesture`,
  `smoothPaddleMovement`) — the revision of the classifier with the
  non-finite-landmark guard and the delta-time-normalized motion smoother.

JavaScript numbers are modelled as rationals (`ℚ`); a non-finite JavaScript
value (NaN/Infinity) or a missing field is modelled as `Option.none` where the
source checks for it (`Number.isFinite`).  `Math.hypot` comparisons are
expressed on squared distances, which is equivalent because both sides of the
source comparison are nonnegative.
-/

/-- Game width in pixels (`constants.ts`: `GAME_WIDTH`). -/
def GAME_WIDTH : ℚ := 1280

/-- Game height in pixels (`constants.ts`: `GAME_HEIGHT`). -/
def GAME_HEIGHT : ℚ := 720

/-- Ball radius in pixels (`constants.ts`: `BALL_RADIUS`). -/
def BALL_RADIUS : ℚ := 10

/-- Speed multiplier applied on each paddle hit in the capped revision
(`constants.ts`: `BALL_SPEED_INCREASE_FACTOR = 1.03`). -/
def BALL_SPEED_INCREASE_FACTOR : ℚ := 103 / 100

/-- Maximum ball speed relative to the initial speed
(`constants.ts`: `MAX_BALL_SPEED_MULTIPLIER = 2.5`). -/
def MAX_BALL_SPEED_MULTIPLIER : ℚ := 5 / 2

/-- Paddle width in pixels (`constants.ts`: `PADDLE_WIDTH`). -/
def PADDLE_WIDTH : ℚ := 15

/-- Paddle height in pixels (`constants.ts`: `PADDLE_HEIGHT`). -/
def PADDLE_HEIGHT : ℚ := 120

/-- Vertical bounce speed scale (`constants.ts`: `PADDLE_BOUNCE_VY_MULTIPLIER`). -/
def PADDLE_BOUNCE_VY_MULTIPLIER : ℚ := 300

/-- Base smoothing factor at 60 FPS (`constants.ts`: `PADDLE_SMOOTHING_FACTOR`). -/
def PADDLE_SMOOTHING_FACTOR : ℚ := 1 / 5

/-- The `medium` difficulty setting (`constants.ts`: `DIFFICULTY_SETTINGS.medium`),
as a pair `(paddleSpeedAI, initialBallSpeedX)` in pixels per second. -/
def mediumPaddleSpeedAI : ℚ := 240

/-- Initial horizontal ball speed of the `medium` difficulty
(`constants.ts`: `DIFFICULTY_SETTINGS.medium.initialBallSpeedX`). -/
def mediumInitialBallSpeedX : ℚ := 300

/-- JavaScript `Math.sign` restricted to finite numbers. -/
def signQ (q : ℚ) : ℚ := if 0 < q then 1 else if q < 0 then -1 else 0

/-- Ball position in pixels (`GameCanvas.tsx`: the `ball` state). -/
structure Ball where
  x : ℚ
  y : ℚ

/-- Ball velocity in pixels per second (`GameCanvas.tsx`: the `ballSpeed` state). -/
structure BallSpeed where
  vx : ℚ
  vy : ℚ

/-- Match score (`GameCanvas.tsx`: the `score` state). -/
structure Score where
  player : ℕ
  computer : ℕ

/-- The mutable simulation state read and written by one `gameLoop` tick:
ball position and velocity, the AI paddle center, the score, and the
per-point scoring lock (`GameCanvas.tsx`: `pointScoredRef`). -/
structure GameState where
  ball : Ball
  speed : BallSpeed
  computerY : ℚ
  score : Score
  pointScored : Bool

/-- Player-paddle collision plane (`GameCanvas.tsx`:
`playerCollisionPlaneX = PADDLE_WIDTH * 3 + BALL_RADIUS`). -/
def playerCollisionPlaneX : ℚ := PADDLE_WIDTH * 3 + BALL_RADIUS

/-- Computer-paddle collision plane (`GameCanvas.tsx`:
`computerCollisionPlaneX = GAME_WIDTH - PADDLE_WIDTH * 3 - BALL_RADIUS`). -/
def computerCollisionPlaneX : ℚ := GAME_WIDTH - PADDLE_WIDTH * 3 - BALL_RADIUS

/-- AI paddle movement for one tick (`GameCanvas.tsx`: the `setComputerY`
updater inside `gameLoop`): proportional pursuit with a 10px dead zone,
clamped to the paddle travel bounds. -/
def aiMove (paddleSpeedAI dt ballY prevY : ℚ) : ℚ :=
  let diff := ballY - prevY
  let newY := if |diff| > 10 then prevY + signQ diff * paddleSpeedAI * dt else prevY
  max (PADDLE_HEIGHT / 2) (min newY (GAME_HEIGHT - PADDLE_HEIGHT / 2))

/-- Wall collision response (`GameCanvas.tsx` `gameLoop` step 2): clamp the
projected y to the bound and negate `vy`. -/
def wallBounce (nb : Ball) (sp : BallSpeed) : Ball × BallSpeed :=
  if nb.y > GAME_HEIGHT - BALL_RADIUS then
    (⟨nb.x, GAME_HEIGHT - BALL_RADIUS⟩, ⟨sp.vx, -sp.vy⟩)
  else if nb.y < BALL_RADIUS then
    (⟨nb.x, BALL_RADIUS⟩, ⟨sp.vx, -sp.vy⟩)
  else (nb, sp)

/-- Linear interpolation of the frame's motion segment at a collision plane
(`GameCanvas.tsx` `gameLoop` step 3: `t = (planeX - ball.x) / dx`,
`intersectionY = ball.y + dy * t`). -/
def intersectY (planeX : ℚ) (prev nb : Ball) : ℚ :=
  prev.y + (nb.y - prev.y) * ((planeX - prev.x) / (nb.x - prev.x))

/-- Result of one paddle-collision check: the possibly updated ball and
speed, and whether a bounce registered (`playPaddleHit` fired). -/
structure PaddleHitOut where
  ball : Ball
  speed : BallSpeed
  hit : Bool

/-- Horizontal bounce response of the current `GameCanvas.tsx` player paddle:
`nextBallSpeed.vx = -nextBallSpeed.vx * 1.05`, with no cap. -/
def liveBounceVx (vx : ℚ) : ℚ := -vx * (21 / 20)

/-- Horizontal bounce response of the `part_004` revision of `gameLoop`:
`newVx = -vx * BALL_SPEED_INCREASE_FACTOR`, capped at
`maxBallSpeedX = initialBallSpeedX * MAX_BALL_SPEED_MULTIPLIER`
(`if (Math.abs(newVx) > maxBallSpeedX) newVx = Math.sign(newVx) * maxBallSpeedX`). -/
def cappedBounceVx (maxBallSpeedX vx : ℚ) : ℚ :=
  let newVx := -vx * BALL_SPEED_INCREASE_FACTOR
  if |newVx| > maxBallSpeedX then signQ newVx * maxBallSpeedX else newVx

/-- Player-paddle continuous collision check (`GameCanvas.tsx` `gameLoop`
step 3, player side): the segment must cross the plane from the right while
moving left, and the interpolated y must fall within the paddle's extent.
On hit the ball x snaps to the plane, `vx` reverses and scales by 1.05, and
`vy` is set by the off-center impact ratio. -/
def playerBounce (playerY : ℚ) (prev nb : Ball) (sp : BallSpeed) : PaddleHitOut :=
  if sp.vx < 0 ∧ nb.x ≤ playerCollisionPlaneX ∧ prev.x > playerCollisionPlaneX then
    if nb.x - prev.x ≠ 0 then
      if playerY - PADDLE_HEIGHT / 2 ≤ intersectY playerCollisionPlaneX prev nb ∧
          intersectY playerCollisionPlaneX prev nb ≤ playerY + PADDLE_HEIGHT / 2 then
        ⟨⟨playerCollisionPlaneX, nb.y⟩,
         ⟨liveBounceVx sp.vx,
          -((playerY - intersectY playerCollisionPlaneX prev nb) / (PADDLE_HEIGHT / 2)) *
            PADDLE_BOUNCE_VY_MULTIPLIER⟩,
         true⟩
      else ⟨nb, sp, false⟩
    else ⟨nb, sp, false⟩
  else ⟨nb, sp, false⟩

/-- Computer-paddle continuous collision check (`GameCanvas.tsx` `gameLoop`
step 3, computer side): symmetric crossing test; on hit the ball x snaps to
the plane and `vx` is negated (no scaling in the current file). -/
def computerBounce (computerY : ℚ) (prev nb : Ball) (sp : BallSpeed) : PaddleHitOut :=
  if 0 < sp.vx ∧ computerCollisionPlaneX ≤ nb.x ∧ prev.x < computerCollisionPlaneX then
    if nb.x - prev.x ≠ 0 then
      if computerY - PADDLE_HEIGHT / 2 ≤ intersectY computerCollisionPlaneX prev nb ∧
          intersectY computerCollisionPlaneX prev nb ≤ computerY + PADDLE_HEIGHT / 2 then
        ⟨⟨computerCollisionPlaneX, nb.y⟩, ⟨-sp.vx, sp.vy⟩, true⟩
      else ⟨nb, sp, false⟩
    else ⟨nb, sp, false⟩
  else ⟨nb, sp, false⟩

/-- Combined collision phase of one tick (`GameCanvas.tsx` `gameLoop` steps
1-3): Euler integration, wall bounce, then the two paddle checks in source
order. -/
structure CollisionOut where
  ball : Ball
  speed : BallSpeed
  playerHit : Bool
  computerHit : Bool

/-- Steps 1-2 of `gameLoop`: Euler integration of the ball followed by the
wall-collision response. -/
def wallPhase (dt : ℚ) (s : GameState) : Ball × BallSpeed :=
  wallBounce ⟨s.ball.x + s.speed.vx * dt, s.ball.y + s.speed.vy * dt⟩ s.speed

/-- Step 3 of `gameLoop`, player side, applied to the integrated and
wall-resolved ball. -/
def playerPhase (playerY dt : ℚ) (s : GameState) : PaddleHitOut :=
  playerBounce playerY s.ball (wallPhase dt s).1 (wallPhase dt s).2

/-- Step 3 of `gameLoop`, computer side, applied after the player-side
check, exactly as in the source order. -/
def computerPhase (playerY dt : ℚ) (s : GameState) : PaddleHitOut :=
  computerBounce s.computerY s.ball (playerPhase playerY dt s).ball
    (playerPhase playerY dt s).speed

/-- Steps 1-3 of `gameLoop`: integrate, bounce off walls, then test both
paddle planes in order. -/
def collisionPhase (playerY dt : ℚ) (s : GameState) : CollisionOut :=
  ⟨(computerPhase playerY dt s).ball, (computerPhase playerY dt s).speed,
   (playerPhase playerY dt s).hit, (computerPhase playerY dt s).hit⟩

/-- Steps 4-5 of `gameLoop`: if the resolved next x is out of bounds, award
a point to the scoring side — but only when the per-point lock is clear —
and leave the ball state untouched; otherwise commit the resolved ball and
speed. -/
def applyScoring (nb : Ball) (nsp : BallSpeed) (computerY' : ℚ) (s : GameState) : GameState :=
  if nb.x < 0 then
    if s.pointScored then
      { s with computerY := computerY' }
    else
      { s with computerY := computerY',
               score := ⟨s.score.player, s.score.computer + 1⟩,
               pointScored := true }
  else if nb.x > GAME_WIDTH then
    if s.pointScored then
      { s with computerY := computerY' }
    else
      { s with computerY := computerY',
               score := ⟨s.score.player + 1, s.score.computer⟩,
               pointScored := true }
  else
    { ball := nb, speed := nsp, computerY := computerY', score := s.score,
      pointScored := s.pointScored }

/-- Result of a full tick: the committed state plus which paddle bounces
registered during the tick. -/
structure TickResult where
  state : GameState
  playerHit : Bool
  computerHit : Bool

/-- One full physics tick of `GameCanvas.tsx`'s `gameLoop` for an already
clamped, nonzero `dt` (steps 1-5). -/
def gameLoopTick (paddleSpeedAI playerY dt : ℚ) (s : GameState) : TickResult :=
  let c := collisionPhase playerY dt s
  let computerY' := aiMove paddleSpeedAI dt s.ball.y s.computerY
  ⟨applyScoring c.ball c.speed computerY' s, c.playerHit, c.computerHit⟩

/-- One rendered frame of `gameLoop`, including the delta-time clamp
`dt = Math.max(0, Math.min(dt, 0.05))` and the skip when `dt === 0`. -/
def gameLoopFrame (paddleSpeedAI playerY rawDt : ℚ) (s : GameState) : TickResult :=
  let dt := max 0 (min rawDt (1 / 20))
  if dt = 0 then ⟨s, false, false⟩ else gameLoopTick paddleSpeedAI playerY dt s

/-- One hand landmark as consumed by `src/App.tsx`'s `detectGesture`, which
reads the raw MediaPipe coordinates without a finiteness guard. -/
structure Landmark where
  x : ℚ
  y : ℚ
  z : ℚ

/-- The gesture vocabulary of `src/App.tsx` (`HandGesture`); JavaScript's
`'open'` is rendered `openHand`. -/
inductive HandGesture where
  | fist
  | pointer
  | spread
  | thumbs_up
  | thumbs_down
  | openHand
  | unknown
  deriving DecidableEq

/-- The gesture classifier of `src/App.tsx` (`detectGesture`, lines 70-162).
The input is `none` for a null array.  The `Math.hypot` comparison of the
`spread` rule is expressed on squared distances, which is equivalent because
both sides of the source comparison are nonnegative. -/
def detectGesture (landmarks : Option (List Landmark)) : HandGesture :=
  match landmarks with
  | none => .unknown
  | some lms =>
    if lms.length < 21 then .unknown
    else
      let l := fun i => lms.getD i ⟨0, 0, 0⟩
      let isIndexExtended := decide ((l 8).y < (l 6).y)
      let isMiddleExtended := decide ((l 12).y < (l 10).y)
      let isRingExtended := decide ((l 16).y < (l 14).y)
      let isPinkyExtended := decide ((l 20).y < (l 18).y)
      let isThumbExtended := decide ((l 4).x < (l 3).x)
      let isThumbDown := decide ((l 4).y > (l 3).y)
      let isThumbClearlyUp := decide ((l 4).y < (l 6).y)
      let isThumbClearlyDown := decide ((l 4).y > (l 9).y)
      let allFingersExtended := isIndexExtended && isMiddleExtended && isRingExtended && isPinkyExtended
      let areFingersCurled :=
        decide ((l 8).y > (l 6).y) && decide ((l 12).y > (l 10).y) &&
        decide ((l 16).y > (l 14).y) && decide ((l 20).y > (l 18).y)
      let areOthersCurledForPointer :=
        decide ((l 12).y > (l 10).y) && decide ((l 16).y > (l 14).y) &&
        decide ((l 20).y > (l 18).y)
      if isThumbClearlyUp && areFingersCurled then .thumbs_up
      else if isThumbDown && isThumbClearlyDown && areFingersCurled then .thumbs_down
      else if isIndexExtended && areOthersCurledForPointer then .pointer
      else if areFingersCurled && !isThumbClearlyUp then .fist
      else if allFingersExtended && isThumbExtended &&
          decide (((l 8).x - (l 20).x) ^ 2 + ((l 8).y - (l 20).y) ^ 2 >
            (121 / 100) * (((l 0).x - (l 9).x) ^ 2 + ((l 0).y - (l 9).y) ^ 2)) then
        .spread
      else .openHand

/-- One raw landmark as delivered to the `part_000` revision: `some q` models
an ordinary finite JavaScript number, `none` models a non-finite value
(NaN/Infinity) or a missing field — exactly what its `isLandmarkVisible`
rejects. -/
structure RawLandmark where
  x : Option ℚ
  y : Option ℚ
  z : Option ℚ

/-- Visibility guard of the `part_000` revision (`isLandmarkVisible`): the
landmark must exist and all three coordinates must be finite numbers. -/
def isLandmarkVisible (l : Option RawLandmark) : Bool :=
  match l with
  | some lm => lm.x.isSome && lm.y.isSome && lm.z.isSome
  | none => false

/-- The landmark indices required by the `part_000` classifier
(`requiredIndices`). -/
def requiredIndices : List ℕ := [0, 3, 4, 6, 8, 9, 10, 12, 14, 16, 18, 20]

/-- The gesture vocabulary of the `part_000` revision. -/
inductive DraftGesture where
  | fist
  | pointer
  | thumbs_up
  | victory
  | openHand
  | unknown
  deriving DecidableEq

/-- The gesture classifier of the `part_000` revision (`detectGesture`,
lines 475-545), including its stability fix: any required landmark that is
missing or has a non-finite coordinate makes the classifier return
`unknown` before any geometry is computed. -/
def draftDetectGesture (landmarks : Option (List RawLandmark)) : DraftGesture :=
  match landmarks with
  | none => .unknown
  | some lms =>
    if lms.length < 21 then .unknown
    else if !(requiredIndices.all fun i => isLandmarkVisible (lms.get? i)) then .unknown
    else
      let gy := fun i => ((lms.getD i ⟨none, none, none⟩).y).getD 0
      let isIndexExtended := decide (gy 8 < gy 6)
      let isMiddleExtended := decide (gy 12 < gy 10)
      let isRingCurled := decide (gy 16 > gy 14)
      let isPinkyCurled := decide (gy 20 > gy 18)
      let isThumbClearlyUp := decide (gy 4 < gy 6)
      let areFingersCurled :=
        decide (gy 8 > gy 6) && decide (gy 12 > gy 10) && isRingCurled && isPinkyCurled
      let areOthersCurledForPointer :=
        decide (gy 12 > gy 10) && isRingCurled && isPinkyCurled
      if isIndexExtended && isMiddleExtended && isRingCurled && isPinkyCurled then .victory
      else if isThumbClearlyUp && areFingersCurled then .thumbs_up
      else if isIndexExtended && areOthersCurledForPointer then .pointer
      else if areFingersCurled && !isThumbClearlyUp then .fist
      else .openHand

/-- A captured or historical calibration range (`src/App.tsx`:
`calibrationRange`, `calibrationDataRef`, `calibrationHistory` entries). -/
structure CalibRange where
  min : ℚ
  max : ℚ

/-- The calibration state owned by `src/App.tsx`: the active range and the
history of accepted ranges. -/
structure CalibState where
  range : CalibRange
  history : List CalibRange

/-- The `calibrationStep === 'finished'` effect of `src/App.tsx` (lines
552-576): validate the captured range; if valid, append it to the history
and set the active range to the member-wise arithmetic mean of the new
history; if invalid, change nothing. -/
def commitCalibration (captured : CalibRange) (s : CalibState) : CalibState :=
  if captured.min < captured.max ∧ captured.max - captured.min > 1 / 10 then
    let newHistory := s.history ++ [captured]
    ⟨⟨(newHistory.map CalibRange.min).sum / (newHistory.length : ℚ),
      (newHistory.map CalibRange.max).sum / (newHistory.length : ℚ)⟩,
     newHistory⟩
  else s

/-- One landmark-callback observation during calibration: the classified
gesture and the tracked control landmark's normalized y. -/
structure CalibFrame where
  gesture : HandGesture
  y : ℚ

/-- The gesture-gated position tracking of `src/App.tsx`'s `onResults`
(lines 327-332): while calibrating, `lastValidCalibPositionRef` is
overwritten with the current y on every frame whose gesture is `fist`. -/
def trackCalibPosition (samples : List CalibFrame) : Option ℚ :=
  samples.foldl (fun acc f => if f.gesture = HandGesture.fist then some f.y else acc) none

/-- The hand-exit commit of the top boundary in `src/App.tsx`'s `onResults`
(lines 387-410, `'up'` step): commit the gesture-gated position if one was
observed and it lies in the upper half of the frame. -/
def commitTopBoundary (lastValidY : Option ℚ) : Option ℚ :=
  match lastValidY with
  | some y => if y < 1 / 2 then some y else none
  | none => none

/-- Modelled from the spec: the last y observed while the control gesture
(fist) was held — the value the amended claim C7 says is committed. -/
def lastGatedY (samples : List CalibFrame) : Option ℚ :=
  ((samples.filter fun f => f.gesture == HandGesture.fist).map CalibFrame.y).getLast?

/-- Modelled from the spec: the minimum y observed while the control gesture
(fist) was held — the extremum the original claim C7 says is committed for
the top step. -/
def minGatedY (samples : List CalibFrame) : Option ℚ :=
  ((samples.filter fun f => f.gesture == HandGesture.fist).map CalibFrame.y).min?

/-- The paddle-position mapping of `src/App.tsx`'s `onResults` (lines
358-381): normalize the raw y against the calibrated span when the span is
valid (full-frame fallback otherwise), scale onto the paddle travel range,
and clamp so the paddle never leaves the screen. -/
def mapToPaddleY (rawY rangeMin rangeMax : ℚ) : ℚ :=
  let paddleTravelRange := GAME_HEIGHT - PADDLE_HEIGHT
  let calibrationSpan := rangeMax - rangeMin
  let newY :=
    if calibrationSpan > 1 / 10 then
      ((rawY - rangeMin) / calibrationSpan) * paddleTravelRange + PADDLE_HEIGHT / 2
    else
      rawY * paddleTravelRange + PADDLE_HEIGHT / 2
  max (PADDLE_HEIGHT / 2) (min newY (GAME_HEIGHT - PADDLE_HEIGHT / 2))

/-- One update of the motion smoother in the `part_000` revision
(`smoothPaddleMovement`, lines 858-884): snap when within half a pixel,
otherwise move by the delta-time-normalized fraction
`min(PADDLE_SMOOTHING_FACTOR * dt * 60, 1)` of the remaining distance. -/
def smoothStep (targetY dt prevY : ℚ) : ℚ :=
  if |targetY - prevY| < 1 / 2 then targetY
  else prevY + (targetY - prevY) * min (PADDLE_SMOOTHING_FACTOR * dt * 60) 1

/-- Iterated smoother updates with a constant target and fixed `dt`. -/
def smoothIter (targetY dt c0 : ℚ) : ℕ → ℚ
  | 0 => c0
  | n + 1 => smoothStep targetY dt (smoothIter targetY dt c0 n)

/-- A concrete landmark frame: all four non-thumb fingertips below their
PIPs (curled), thumb tip at y = 0.9 — not above the index PIP, but below
the thumb IP and the middle MCP (the thumbs-down configuration). -/
def thumbsDownCurledHand : List Landmark :=
  [⟨0, 1/2, 0⟩, ⟨0, 1/2, 0⟩, ⟨0, 1/2, 0⟩, ⟨0, 1/2, 0⟩, ⟨0, 9/10, 0⟩,
   ⟨0, 1/2, 0⟩, ⟨0, 2/5, 0⟩, ⟨0, 1/2, 0⟩, ⟨0, 3/5, 0⟩, ⟨0, 1/2, 0⟩,
   ⟨0, 2/5, 0⟩, ⟨0, 1/2, 0⟩, ⟨0, 3/5, 0⟩, ⟨0, 1/2, 0⟩, ⟨0, 2/5, 0⟩,
   ⟨0, 1/2, 0⟩, ⟨0, 3/5, 0⟩, ⟨0, 1/2, 0⟩, ⟨0, 2/5, 0⟩, ⟨0, 1/2, 0⟩,
   ⟨0, 3/5, 0⟩]

/-- A concrete fist frame for the same classifier: all four fingertips below
their PIPs, thumb tip level with the palm (not clearly up, not clearly
down). -/
def plainFistHand : List Landmark :=
  [⟨0, 1/2, 0⟩, ⟨0, 1/2, 0⟩, ⟨0, 1/2, 0⟩, ⟨0, 1/2, 0⟩, ⟨0, 1/2, 0⟩,
   ⟨0, 1/2, 0⟩, ⟨0, 2/5, 0⟩, ⟨0, 1/2, 0⟩, ⟨0, 3/5, 0⟩, ⟨0, 1/2, 0⟩,
   ⟨0, 2/5, 0⟩, ⟨0, 1/2, 0⟩, ⟨0, 3/5, 0⟩, ⟨0, 1/2, 0⟩, ⟨0, 2/5, 0⟩,
   ⟨0, 1/2, 0⟩, ⟨0, 3/5, 0⟩, ⟨0, 1/2, 0⟩, ⟨0, 2/5, 0⟩, ⟨0, 1/2, 0⟩,
   ⟨0, 3/5, 0⟩]

/-- A concrete 21-entry raw-landmark frame whose thumb tip (index 4) has a
non-finite y coordinate. -/
def missingYHand : List RawLandmark :=
  (List.replicate 21 ⟨some 0, some 0, some 0⟩).set 4 ⟨some 0, none, some 0⟩

/-- The interpolated crossing y at the player plane for one tick, exactly as
`gameLoop` computes it: the segment runs from the current ball to the
integrated-and-wall-resolved next ball. -/
def interpPlayerY (dt : ℚ) (s : GameState) : ℚ :=
  intersectY playerCollisionPlaneX s.ball (wallPhase dt s).1

/-- The interpolated crossing y at the computer plane for one tick, exactly as
`gameLoop` computes it. -/
def interpComputerY (dt : ℚ) (s : GameState) : ℚ :=
  intersectY computerCollisionPlaneX s.ball (wallPhase dt s).1

lemma wallBounce_fst_x (nb : Ball) (sp : BallSpeed) : (wallBounce nb sp).1.x = nb.x := by
  unfold wallBounce; split_ifs <;> rfl

lemma wallBounce_snd_vx (nb : Ball) (sp : BallSpeed) : (wallBounce nb sp).2.vx = sp.vx := by
  unfold wallBounce; split_ifs <;> rfl

lemma playerBounce_hit (playerY : ℚ) (prev nb : Ball) (sp : BallSpeed)
    (h1 : sp.vx < 0) (h2 : nb.x ≤ playerCollisionPlaneX) (h3 : prev.x > playerCollisionPlaneX)
    (h4 : nb.x - prev.x ≠ 0)
    (h5 : playerY - PADDLE_HEIGHT / 2 ≤ intersectY playerCollisionPlaneX prev nb)
    (h6 : intersectY playerCollisionPlaneX prev nb ≤ playerY + PADDLE_HEIGHT / 2) :
    playerBounce playerY prev nb sp =
      ⟨⟨playerCollisionPlaneX, nb.y⟩,
       ⟨liveBounceVx sp.vx,
        -((playerY - intersectY playerCollisionPlaneX prev nb) / (PADDLE_HEIGHT / 2)) *
          PADDLE_BOUNCE_VY_MULTIPLIER⟩,
       true⟩ := by
  unfold playerBounce
  rw [if_pos ⟨h1, h2, h3⟩, if_pos h4, if_pos ⟨h5, h6⟩]

lemma playerBounce_miss_right (playerY : ℚ) (prev nb : Ball) (sp : BallSpeed)
    (h : ¬sp.vx < 0) : playerBounce playerY prev nb sp = ⟨nb, sp, false⟩ := by
  unfold playerBounce
  rw [if_neg (by tauto)]

lemma playerBounce_miss_plane (playerY : ℚ) (prev nb : Ball) (sp : BallSpeed)
    (h : ¬prev.x > playerCollisionPlaneX) : playerBounce playerY prev nb sp = ⟨nb, sp, false⟩ := by
  unfold playerBounce
  rw [if_neg (by tauto)]

lemma computerBounce_hit (computerY : ℚ) (prev nb : Ball) (sp : BallSpeed)
    (h1 : 0 < sp.vx) (h2 : computerCollisionPlaneX ≤ nb.x) (h3 : prev.x < computerCollisionPlaneX)
    (h4 : nb.x - prev.x ≠ 0)
    (h5 : computerY - PADDLE_HEIGHT / 2 ≤ intersectY computerCollisionPlaneX prev nb)
    (h6 : intersectY computerCollisionPlaneX prev nb ≤ computerY + PADDLE_HEIGHT / 2) :
    computerBounce computerY prev nb sp =
      ⟨⟨computerCollisionPlaneX, nb.y⟩, ⟨-sp.vx, sp.vy⟩, true⟩ := by
  unfold computerBounce
  rw [if_pos ⟨h1, h2, h3⟩, if_pos h4, if_pos ⟨h5, h6⟩]

lemma computerBounce_miss_left (computerY : ℚ) (prev nb : Ball) (sp : BallSpeed)
    (h : ¬computerCollisionPlaneX ≤ nb.x) : computerBounce computerY prev nb sp = ⟨nb, sp, false⟩ := by
  unfold computerBounce
  rw [if_neg (by tauto)]

lemma computerBounce_miss_slow (computerY : ℚ) (prev nb : Ball) (sp : BallSpeed)
    (h : ¬0 < sp.vx) : computerBounce computerY prev nb sp = ⟨nb, sp, false⟩ := by
  unfold computerBounce
  rw [if_neg (by tauto)]

lemma applyScoring_inbounds (nb : Ball) (nsp : BallSpeed) (computerY' : ℚ) (s : GameState)
    (h1 : ¬nb.x < 0) (h2 : ¬nb.x > GAME_WIDTH) :
    applyScoring nb nsp computerY' s =
      ⟨nb, nsp, computerY', s.score, s.pointScored⟩ := by
  unfold applyScoring
  rw [if_neg h1, if_neg h2]

lemma gameLoopTick_eq (paddleSpeedAI playerY dt : ℚ) (s : GameState) :
    gameLoopTick paddleSpeedAI playerY dt s =
      ⟨applyScoring (collisionPhase playerY dt s).ball (collisionPhase playerY dt s).speed
         (aiMove paddleSpeedAI dt s.ball.y s.computerY) s,
       (collisionPhase playerY dt s).playerHit, (collisionPhase playerY dt s).computerHit⟩ := rfl

/-- The `part_004` paddle bounce always re-establishes the speed cap: for any
nonnegative cap, the capped bounce keeps `|vx|` at or below the cap. -/
theorem cappedBounceVx_abs_le (maxBallSpeedX vx : ℚ) (h : 0 ≤ maxBallSpeedX) :
    |cappedBounceVx maxBallSpeedX vx| ≤ maxBallSpeedX := by
  unfold cappedBounceVx signQ
  dsimp only
  split_ifs with h1 h2 h3
  · rw [one_mul, abs_of_nonneg h]
  · rw [neg_one_mul, abs_neg, abs_of_nonneg h]
  · exfalso
    have hz : -vx * BALL_SPEED_INCREASE_FACTOR = 0 := le_antisymm (not_lt.mp h2) (not_lt.mp h3)
    rw [hz] at h1
    simp at h1
    exact absurd h1 (not_lt.mpr h)
  · exact le_of_not_lt h1

/-- Claim C1: the spec's ball-speed invariant `|vx| ≤ initialBallSpeedX *
MAX_BALL_SPEED_MULTIPLIER` is violated by the current `GameCanvas.tsx`
`gameLoop`: its player-paddle bounce multiplies `vx` by a hardcoded 1.05
with no cap, so a tick starting from the in-bound speed `vx = -730`
(medium difficulty cap is `300 * 2.5 = 750`) commits `vx = 766.5 > 750`. -/
theorem C1_speed_cap_violated_by_live_bounce :
    |(-730 : ℚ)| ≤ mediumInitialBallSpeedX * MAX_BALL_SPEED_MULTIPLIER ∧
    (gameLoopTick mediumPaddleSpeedAI 360 (1 / 20)
        ⟨⟨60, 360⟩, ⟨-730, 0⟩, 360, ⟨0, 0⟩, false⟩).state.speed.vx = 1533 / 2 ∧
    mediumInitialBallSpeedX * MAX_BALL_SPEED_MULTIPLIER < 1533 / 2 := by
  refine ⟨by norm_num [mediumInitialBallSpeedX, MAX_BALL_SPEED_MULTIPLIER], ?_,
    by norm_num [mediumInitialBallSpeedX, MAX_BALL_SPEED_MULTIPLIER]⟩
  norm_num [gameLoopTick, collisionPhase, wallPhase, playerPhase, computerPhase, wallBounce, playerBounce, computerBounce,
    applyScoring, aiMove, intersectY, liveBounceVx, GAME_WIDTH, GAME_HEIGHT,
    BALL_RADIUS, PADDLE_HEIGHT, PADDLE_BOUNCE_VY_MULTIPLIER, playerCollisionPlaneX,
    computerCollisionPlaneX, PADDLE_WIDTH, signQ, mediumPaddleSpeedAI]

/-- Claim C3, counterexample: with the ball at `(640,360)`, velocity
`(300,0)` px/s and a frame delta of 0.1 s, the loop clamps `dt` to 0.05 s,
so the next x is 655, not the claimed 670. -/
theorem C3_counterexample_dt_clamp :
    (gameLoopFrame mediumPaddleSpeedAI 360 (1 / 10)
        ⟨⟨640, 360⟩, ⟨300, 0⟩, 360, ⟨0, 0⟩, false⟩).state.ball.x = 655 ∧
    (655 : ℚ) ≠ 670 := by
  constructor
  · norm_num [gameLoopFrame, gameLoopTick, collisionPhase, wallPhase, playerPhase, computerPhase, wallBounce, playerBounce,
      computerBounce, applyScoring, aiMove, intersectY, liveBounceVx, GAME_WIDTH,
      GAME_HEIGHT, BALL_RADIUS, PADDLE_HEIGHT, playerCollisionPlaneX,
      computerCollisionPlaneX, PADDLE_WIDTH, signQ, mediumPaddleSpeedAI]
  · norm_num

/-- Claim C3 as amended: the 0.1 s frame delta is clamped to 0.05 s, after
which the tick moves the ball from `(640,360)` to `(655,360)`, registers no
paddle collision, and leaves both scores (and the velocity) unchanged. -/
theorem C3_amended_scenario :
    (gameLoopFrame mediumPaddleSpeedAI 360 (1 / 10)
        ⟨⟨640, 360⟩, ⟨300, 0⟩, 360, ⟨0, 0⟩, false⟩).state.ball.x = 655 ∧
    (gameLoopFrame mediumPaddleSpeedAI 360 (1 / 10)
        ⟨⟨640, 360⟩, ⟨300, 0⟩, 360, ⟨0, 0⟩, false⟩).state.ball.y = 360 ∧
    (gameLoopFrame mediumPaddleSpeedAI 360 (1 / 10)
        ⟨⟨640, 360⟩, ⟨300, 0⟩, 360, ⟨0, 0⟩, false⟩).playerHit = false ∧
    (gameLoopFrame mediumPaddleSpeedAI 360 (1 / 10)
        ⟨⟨640, 360⟩, ⟨300, 0⟩, 360, ⟨0, 0⟩, false⟩).computerHit = false ∧
    (gameLoopFrame mediumPaddleSpeedAI 360 (1 / 10)
        ⟨⟨640, 360⟩, ⟨300, 0⟩, 360, ⟨0, 0⟩, false⟩).state.score.player = 0 ∧
    (gameLoopFrame mediumPaddleSpeedAI 360 (1 / 10)
        ⟨⟨640, 360⟩, ⟨300, 0⟩, 360, ⟨0, 0⟩, false⟩).state.score.computer = 0 ∧
    (gameLoopFrame mediumPaddleSpeedAI 360 (1 / 10)
        ⟨⟨640, 360⟩, ⟨300, 0⟩, 360, ⟨0, 0⟩, false⟩).state.speed.vx = 300 ∧
    (gameLoopFrame mediumPaddleSpeedAI 360 (1 / 10)
        ⟨⟨640, 360⟩, ⟨300, 0⟩, 360, ⟨0, 0⟩, false⟩).state.speed.vy = 0 := by
  norm_num [gameLoopFrame, gameLoopTick, collisionPhase, wallPhase, playerPhase, computerPhase, wallBounce, playerBounce,
    computerBounce, applyScoring, aiMove, intersectY, liveBounceVx, GAME_WIDTH,
    GAME_HEIGHT, BALL_RADIUS, PADDLE_HEIGHT, playerCollisionPlaneX,
    computerCollisionPlaneX, PADDLE_WIDTH, signQ, mediumPaddleSpeedAI]

/-- Claim C10, counterexample: a tick whose integrated next x is out of
bounds (`60 - 1300·0.05 = -5 < 0`) can still register a player-paddle
bounce; the ball is then snapped to the collision plane (so its position
and velocity change) and no score is awarded — contradicting the claim that
every such tick freezes the ball and increments the scorer's counter. -/
theorem C10_counterexample_paddle_save :
    (60 : ℚ) + (-1300) * (1 / 20) = -5 ∧ (-5 : ℚ) < 0 ∧
    (gameLoopTick mediumPaddleSpeedAI 360 (1 / 20)
        ⟨⟨60, 360⟩, ⟨-1300, 0⟩, 360, ⟨0, 0⟩, false⟩).playerHit = true ∧
    (gameLoopTick mediumPaddleSpeedAI 360 (1 / 20)
        ⟨⟨60, 360⟩, ⟨-1300, 0⟩, 360, ⟨0, 0⟩, false⟩).state.ball.x = 55 ∧
    (55 : ℚ) ≠ 60 ∧
    (gameLoopTick mediumPaddleSpeedAI 360 (1 / 20)
        ⟨⟨60, 360⟩, ⟨-1300, 0⟩, 360, ⟨0, 0⟩, false⟩).state.score.player = 0 ∧
    (gameLoopTick mediumPaddleSpeedAI 360 (1 / 20)
        ⟨⟨60, 360⟩, ⟨-1300, 0⟩, 360, ⟨0, 0⟩, false⟩).state.score.computer = 0 := by
  norm_num [gameLoopTick, collisionPhase, wallPhase, playerPhase, computerPhase, wallBounce, playerBounce, computerBounce,
    applyScoring, aiMove, intersectY, liveBounceVx, GAME_WIDTH, GAME_HEIGHT,
    BALL_RADIUS, PADDLE_HEIGHT, PADDLE_BOUNCE_VY_MULTIPLIER, playerCollisionPlaneX,
    computerCollisionPlaneX, PADDLE_WIDTH, signQ, mediumPaddleSpeedAI]

/-- Claim C10 as amended: on any tick whose collision-resolved next x is out
of horizontal bounds, the ball's position and velocity are left unchanged;
if the scoring lock was already set nothing else changes, and if it was
clear the lock is set and exactly the scoring side's counter is
incremented. -/
theorem C10_amended_frozen_ball_scoring :
    ∀ (paddleSpeedAI playerY dt : ℚ) (s : GameState),
      ((collisionPhase playerY dt s).ball.x < 0 ∨
        (collisionPhase playerY dt s).ball.x > GAME_WIDTH) →
      (gameLoopTick paddleSpeedAI playerY dt s).state.ball = s.ball ∧
      (gameLoopTick paddleSpeedAI playerY dt s).state.speed = s.speed ∧
      (gameLoopTick paddleSpeedAI playerY dt s).state.pointScored = true ∧
      (s.pointScored = true →
        (gameLoopTick paddleSpeedAI playerY dt s).state.score = s.score) ∧
      (s.pointScored = false →
        ((collisionPhase playerY dt s).ball.x < 0 →
          (gameLoopTick paddleSpeedAI playerY dt s).state.score =
            ⟨s.score.player, s.score.computer + 1⟩) ∧
        ((collisionPhase playerY dt s).ball.x > GAME_WIDTH →
          (gameLoopTick paddleSpeedAI playerY dt s).state.score =
            ⟨s.score.player + 1, s.score.computer⟩)) := by
  intro paddleSpeedAI playerY dt s hout
  rw [gameLoopTick_eq]
  unfold applyScoring
  rcases hout with hlt | hgt
  · rw [if_pos hlt]
    cases hps : s.pointScored
    · simp [hps]
      rw [GAME_WIDTH]
      linarith
    · simp [hps]
  · have hnlt : ¬(collisionPhase playerY dt s).ball.x < 0 := by
      rw [GAME_WIDTH] at hgt; linarith
    rw [if_neg hnlt, if_pos hgt]
    cases hps : s.pointScored
    · simp [hps]
      linarith [not_lt.mp hnlt]
    · simp [hps]

lemma wallPhase_fst_x (dt : ℚ) (s : GameState) :
    (wallPhase dt s).1.x = s.ball.x + s.speed.vx * dt := by
  unfold wallPhase
  rw [wallBounce_fst_x]

lemma wallPhase_snd_vx (dt : ℚ) (s : GameState) :
    (wallPhase dt s).2.vx = s.speed.vx := by
  unfold wallPhase
  rw [wallBounce_snd_vx]

/-- Claim C2: on a single tick with `0 < dt ≤ 0.05` and any ball speed up to
the configured maximum, if the ball's motion segment crosses a paddle's
collision plane with the interpolated crossing y inside that paddle's
vertical extent, then exactly one bounce registers: the ball's x snaps to
the plane and `vx` changes sign exactly once — the other paddle's check
cannot fire on the same tick, so there is no tunneling and no double
bounce. -/
theorem C2_crossing_registers_exactly_one_bounce :
    ∀ (paddleSpeedAI playerY dt : ℚ) (s : GameState),
      0 < dt → dt ≤ 1 / 20 →
      |s.speed.vx| ≤ mediumInitialBallSpeedX * MAX_BALL_SPEED_MULTIPLIER →
      ((s.speed.vx < 0 →
          playerCollisionPlaneX < s.ball.x →
          s.ball.x + s.speed.vx * dt ≤ playerCollisionPlaneX →
          playerY - PADDLE_HEIGHT / 2 ≤ interpPlayerY dt s →
          interpPlayerY dt s ≤ playerY + PADDLE_HEIGHT / 2 →
          (gameLoopTick paddleSpeedAI playerY dt s).playerHit = true ∧
          (gameLoopTick paddleSpeedAI playerY dt s).computerHit = false ∧
          (gameLoopTick paddleSpeedAI playerY dt s).state.ball.x = playerCollisionPlaneX ∧
          (gameLoopTick paddleSpeedAI playerY dt s).state.speed.vx = -s.speed.vx * (21 / 20) ∧
          0 < (gameLoopTick paddleSpeedAI playerY dt s).state.speed.vx) ∧
       (0 < s.speed.vx →
          s.ball.x < computerCollisionPlaneX →
          computerCollisionPlaneX ≤ s.ball.x + s.speed.vx * dt →
          s.computerY - PADDLE_HEIGHT / 2 ≤ interpComputerY dt s →
          interpComputerY dt s ≤ s.computerY + PADDLE_HEIGHT / 2 →
          (gameLoopTick paddleSpeedAI playerY dt s).computerHit = true ∧
          (gameLoopTick paddleSpeedAI playerY dt s).playerHit = false ∧
          (gameLoopTick paddleSpeedAI playerY dt s).state.ball.x = computerCollisionPlaneX ∧
          (gameLoopTick paddleSpeedAI playerY dt s).state.speed.vx = -s.speed.vx ∧
          (gameLoopTick paddleSpeedAI playerY dt s).state.speed.vx < 0)) := by
  intro paddleSpeedAI playerY dt s hdt hdtle hcap
  constructor
  · intro hvx hxgt hxle hylo hyhi
    have hvxdt : s.speed.vx * dt < 0 := mul_neg_of_neg_of_pos hvx hdt
    have hdx : (wallPhase dt s).1.x - s.ball.x ≠ 0 := by
      rw [wallPhase_fst_x]
      have : s.ball.x + s.speed.vx * dt - s.ball.x = s.speed.vx * dt := by ring
      rw [this]
      exact ne_of_lt hvxdt
    have hp : playerPhase playerY dt s =
        ⟨⟨playerCollisionPlaneX, (wallPhase dt s).1.y⟩,
         ⟨liveBounceVx s.speed.vx,
          -((playerY - interpPlayerY dt s) / (PADDLE_HEIGHT / 2)) *
            PADDLE_BOUNCE_VY_MULTIPLIER⟩,
         true⟩ := by
      unfold playerPhase
      rw [playerBounce_hit playerY s.ball (wallPhase dt s).1 (wallPhase dt s).2
        (by rw [wallPhase_snd_vx]; exact hvx)
        (by rw [wallPhase_fst_x]; exact hxle) hxgt hdx hylo hyhi,
        wallPhase_snd_vx]
      rfl
    have hc : computerPhase playerY dt s =
        ⟨(playerPhase playerY dt s).ball, (playerPhase playerY dt s).speed, false⟩ := by
      unfold computerPhase
      apply computerBounce_miss_left
      rw [hp]
      norm_num [playerCollisionPlaneX, computerCollisionPlaneX, GAME_WIDTH,
        PADDLE_WIDTH, BALL_RADIUS]
    have hcp : collisionPhase playerY dt s =
        ⟨⟨playerCollisionPlaneX, (wallPhase dt s).1.y⟩,
         ⟨liveBounceVx s.speed.vx,
          -((playerY - interpPlayerY dt s) / (PADDLE_HEIGHT / 2)) *
            PADDLE_BOUNCE_VY_MULTIPLIER⟩,
         true, false⟩ := by
      unfold collisionPhase
      rw [hc, hp]
    have hpos : 0 < liveBounceVx s.speed.vx := by
      unfold liveBounceVx
      have := neg_pos.mpr hvx
      nlinarith
    rw [gameLoopTick_eq, hcp]
    rw [applyScoring_inbounds _ _ _ _
      (by norm_num [playerCollisionPlaneX, PADDLE_WIDTH, BALL_RADIUS])
      (by norm_num [playerCollisionPlaneX, PADDLE_WIDTH, BALL_RADIUS, GAME_WIDTH])]
    exact ⟨rfl, rfl, rfl, by unfold liveBounceVx; ring, hpos⟩
  · intro hvx hxlt hxge hylo hyhi
    have hvxdt : 0 < s.speed.vx * dt := mul_pos hvx hdt
    have hdx : (wallPhase dt s).1.x - s.ball.x ≠ 0 := by
      rw [wallPhase_fst_x]
      have : s.ball.x + s.speed.vx * dt - s.ball.x = s.speed.vx * dt := by ring
      rw [this]
      exact (ne_of_lt hvxdt).symm
    have hp : playerPhase playerY dt s =
        ⟨(wallPhase dt s).1, (wallPhase dt s).2, false⟩ := by
      unfold playerPhase
      apply playerBounce_miss_right
      rw [wallPhase_snd_vx]
      exact not_lt.mpr (le_of_lt hvx)
    have hc : computerPhase playerY dt s =
        ⟨⟨computerCollisionPlaneX, (wallPhase dt s).1.y⟩,
         ⟨-s.speed.vx, (wallPhase dt s).2.vy⟩, true⟩ := by
      unfold computerPhase
      rw [hp]
      rw [computerBounce_hit s.computerY s.ball (wallPhase dt s).1 (wallPhase dt s).2
        (by rw [wallPhase_snd_vx]; exact hvx)
        (by rw [wallPhase_fst_x]; exact hxge) hxlt hdx hylo hyhi,
        wallPhase_snd_vx]
    have hcp : collisionPhase playerY dt s =
        ⟨⟨computerCollisionPlaneX, (wallPhase dt s).1.y⟩,
         ⟨-s.speed.vx, (wallPhase dt s).2.vy⟩, false, true⟩ := by
      unfold collisionPhase
      rw [hc, hp]
    rw [gameLoopTick_eq, hcp]
    rw [applyScoring_inbounds _ _ _ _
      (by norm_num [computerCollisionPlaneX, GAME_WIDTH, PADDLE_WIDTH, BALL_RADIUS])
      (by norm_num [computerCollisionPlaneX, GAME_WIDTH, PADDLE_WIDTH, BALL_RADIUS])]
    exact ⟨rfl, rfl, rfl, rfl, neg_neg_of_pos hvx⟩

/-- Witness for C2: a concrete leftward tick (`x = 60`, `vx = -300`,
`dt = 1/60`) crosses the player plane at `y = 360`, inside the paddle
centered at 360, and registers exactly one bounce. -/
theorem C2_witness_player_crossing :
    (0 : ℚ) < 1 / 60 ∧
    ((gameLoopTick 240 360 (1 / 60)
        ⟨⟨60, 360⟩, ⟨-300, 0⟩, 360, ⟨0, 0⟩, false⟩).playerHit = true ∧
     (gameLoopTick 240 360 (1 / 60)
        ⟨⟨60, 360⟩, ⟨-300, 0⟩, 360, ⟨0, 0⟩, false⟩).computerHit = false ∧
     (gameLoopTick 240 360 (1 / 60)
        ⟨⟨60, 360⟩, ⟨-300, 0⟩, 360, ⟨0, 0⟩, false⟩).state.ball.x = playerCollisionPlaneX ∧
     (gameLoopTick 240 360 (1 / 60)
        ⟨⟨60, 360⟩, ⟨-300, 0⟩, 360, ⟨0, 0⟩, false⟩).state.speed.vx = -(-300 : ℚ) * (21 / 20) ∧
     0 < (gameLoopTick 240 360 (1 / 60)
        ⟨⟨60, 360⟩, ⟨-300, 0⟩, 360, ⟨0, 0⟩, false⟩).state.speed.vx) :=
  ⟨by norm_num,
   (C2_crossing_registers_exactly_one_bounce 240 360 (1 / 60)
      ⟨⟨60, 360⟩, ⟨-300, 0⟩, 360, ⟨0, 0⟩, false⟩
      (by norm_num) (by norm_num)
      (by norm_num [mediumInitialBallSpeedX, MAX_BALL_SPEED_MULTIPLIER])).1
    (by norm_num)
    (by norm_num [playerCollisionPlaneX, PADDLE_WIDTH, BALL_RADIUS])
    (by norm_num [playerCollisionPlaneX, PADDLE_WIDTH, BALL_RADIUS])
    (by norm_num [interpPlayerY, intersectY, wallPhase, wallBounce, GAME_HEIGHT,
      BALL_RADIUS, PADDLE_HEIGHT, playerCollisionPlaneX, PADDLE_WIDTH])
    (by norm_num [interpPlayerY, intersectY, wallPhase, wallBounce, GAME_HEIGHT,
      BALL_RADIUS, PADDLE_HEIGHT, playerCollisionPlaneX, PADDLE_WIDTH])⟩

/-- Witness for the amended C10: a tick starting at `x = 5` with `vx = -300`
and `dt = 0.05` integrates to `x = -10 < 0` with no paddle crossing, so the
ball and speed stay frozen and the computer's counter is incremented once. -/
theorem C10_amended_witness_left_score :
    ((collisionPhase 360 (1 / 20)
        ⟨⟨5, 360⟩, ⟨-300, 0⟩, 360, ⟨0, 0⟩, false⟩).ball.x < 0 ∨
      (collisionPhase 360 (1 / 20)
        ⟨⟨5, 360⟩, ⟨-300, 0⟩, 360, ⟨0, 0⟩, false⟩).ball.x > GAME_WIDTH) ∧
    ((gameLoopTick 240 360 (1 / 20)
        ⟨⟨5, 360⟩, ⟨-300, 0⟩, 360, ⟨0, 0⟩, false⟩).state.ball =
          (⟨⟨5, 360⟩, ⟨-300, 0⟩, 360, ⟨0, 0⟩, false⟩ : GameState).ball ∧
     (gameLoopTick 240 360 (1 / 20)
        ⟨⟨5, 360⟩, ⟨-300, 0⟩, 360, ⟨0, 0⟩, false⟩).state.speed =
          (⟨⟨5, 360⟩, ⟨-300, 0⟩, 360, ⟨0, 0⟩, false⟩ : GameState).speed ∧
     (gameLoopTick 240 360 (1 / 20)
        ⟨⟨5, 360⟩, ⟨-300, 0⟩, 360, ⟨0, 0⟩, false⟩).state.pointScored = true ∧
     ((⟨⟨5, 360⟩, ⟨-300, 0⟩, 360, ⟨0, 0⟩, false⟩ : GameState).pointScored = true →
       (gameLoopTick 240 360 (1 / 20)
          ⟨⟨5, 360⟩, ⟨-300, 0⟩, 360, ⟨0, 0⟩, false⟩).state.score =
         (⟨⟨5, 360⟩, ⟨-300, 0⟩, 360, ⟨0, 0⟩, false⟩ : GameState).score) ∧
     ((⟨⟨5, 360⟩, ⟨-300, 0⟩, 360, ⟨0, 0⟩, false⟩ : GameState).pointScored = false →
       ((collisionPhase 360 (1 / 20)
           ⟨⟨5, 360⟩, ⟨-300, 0⟩, 360, ⟨0, 0⟩, false⟩).ball.x < 0 →
         (gameLoopTick 240 360 (1 / 20)
            ⟨⟨5, 360⟩, ⟨-300, 0⟩, 360, ⟨0, 0⟩, false⟩).state.score =
           ⟨(⟨⟨5, 360⟩, ⟨-300, 0⟩, 360, ⟨0, 0⟩, false⟩ : GameState).score.player,
            (⟨⟨5, 360⟩, ⟨-300, 0⟩, 360, ⟨0, 0⟩, false⟩ : GameState).score.computer + 1⟩) ∧
       ((collisionPhase 360 (1 / 20)
           ⟨⟨5, 360⟩, ⟨-300, 0⟩, 360, ⟨0, 0⟩, false⟩).ball.x > GAME_WIDTH →
         (gameLoopTick 240 360 (1 / 20)
            ⟨⟨5, 360⟩, ⟨-300, 0⟩, 360, ⟨0, 0⟩, false⟩).state.score =
           ⟨(⟨⟨5, 360⟩, ⟨-300, 0⟩, 360, ⟨0, 0⟩, false⟩ : GameState).score.player + 1,
            (⟨⟨5, 360⟩, ⟨-300, 0⟩, 360, ⟨0, 0⟩, false⟩ : GameState).score.computer⟩))) :=
  ⟨Or.inl (by norm_num [collisionPhase, wallPhase, playerPhase, computerPhase,
      wallBounce, playerBounce, computerBounce, intersectY, GAME_HEIGHT, GAME_WIDTH,
      BALL_RADIUS, PADDLE_HEIGHT, playerCollisionPlaneX, computerCollisionPlaneX,
      PADDLE_WIDTH]),
   C10_amended_frozen_ball_scoring 240 360 (1 / 20)
      ⟨⟨5, 360⟩, ⟨-300, 0⟩, 360, ⟨0, 0⟩, false⟩
      (Or.inl (by norm_num [collisionPhase, wallPhase, playerPhase, computerPhase,
        wallBounce, playerBounce, computerBounce, intersectY, GAME_HEIGHT, GAME_WIDTH,
        BALL_RADIUS, PADDLE_HEIGHT, playerCollisionPlaneX, computerCollisionPlaneX,
        PADDLE_WIDTH]))⟩

/-- Claim C4, counterexample: a 21-landmark frame that satisfies the claim's
fist premise (all four fingertips below their PIPs, thumb tip not above the
index PIP) is classified `thumbs_down`, not `fist`, because the
thumbs-down rule is tested first and the premise does not exclude it. -/
theorem C4_counterexample_thumbs_down_wins :
    thumbsDownCurledHand.length = 21 ∧
    (thumbsDownCurledHand.getD 8 ⟨0, 0, 0⟩).y > (thumbsDownCurledHand.getD 6 ⟨0, 0, 0⟩).y ∧
    (thumbsDownCurledHand.getD 12 ⟨0, 0, 0⟩).y > (thumbsDownCurledHand.getD 10 ⟨0, 0, 0⟩).y ∧
    (thumbsDownCurledHand.getD 16 ⟨0, 0, 0⟩).y > (thumbsDownCurledHand.getD 14 ⟨0, 0, 0⟩).y ∧
    (thumbsDownCurledHand.getD 20 ⟨0, 0, 0⟩).y > (thumbsDownCurledHand.getD 18 ⟨0, 0, 0⟩).y ∧
    ¬((thumbsDownCurledHand.getD 4 ⟨0, 0, 0⟩).y < (thumbsDownCurledHand.getD 6 ⟨0, 0, 0⟩).y) ∧
    detectGesture (some thumbsDownCurledHand) = HandGesture.thumbs_down ∧
    HandGesture.thumbs_down ≠ HandGesture.fist := by
  refine ⟨rfl, ?_, ?_, ?_, ?_, ?_, ?_, by decide⟩
  · show (3 / 5 : ℚ) > 2 / 5
    norm_num
  · show (3 / 5 : ℚ) > 2 / 5
    norm_num
  · show (3 / 5 : ℚ) > 2 / 5
    norm_num
  · show (3 / 5 : ℚ) > 2 / 5
    norm_num
  · show ¬((9 / 10 : ℚ) < 2 / 5)
    norm_num
  · norm_num [detectGesture, thumbsDownCurledHand]

/-- Claim C4 as amended: a 21-landmark frame with all four non-thumb
fingertips strictly below their PIPs, the thumb not clearly up (tip not
above the index PIP), and additionally the thumb not in the clearly-down
configuration, is classified `fist`; any frame with fewer than 21 landmarks
is classified `unknown`. -/
theorem C4_amended_fist_classification :
    (∀ lms : List Landmark, lms.length = 21 →
      (lms.getD 8 ⟨0, 0, 0⟩).y > (lms.getD 6 ⟨0, 0, 0⟩).y →
      (lms.getD 12 ⟨0, 0, 0⟩).y > (lms.getD 10 ⟨0, 0, 0⟩).y →
      (lms.getD 16 ⟨0, 0, 0⟩).y > (lms.getD 14 ⟨0, 0, 0⟩).y →
      (lms.getD 20 ⟨0, 0, 0⟩).y > (lms.getD 18 ⟨0, 0, 0⟩).y →
      ¬((lms.getD 4 ⟨0, 0, 0⟩).y < (lms.getD 6 ⟨0, 0, 0⟩).y) →
      ¬((lms.getD 4 ⟨0, 0, 0⟩).y > (lms.getD 3 ⟨0, 0, 0⟩).y ∧
        (lms.getD 4 ⟨0, 0, 0⟩).y > (lms.getD 9 ⟨0, 0, 0⟩).y) →
      detectGesture (some lms) = HandGesture.fist) ∧
    (∀ lms : List Landmark, lms.length < 21 →
      detectGesture (some lms) = HandGesture.unknown) := by
  constructor
  · intro lms hlen h8 h12 h16 h20 hup hdn
    have h8' := lt_asymm h8
    simp only [detectGesture]
    rw [if_neg (by omega)]
    split_ifs with h1 h2 h3 h4 h5
    · exfalso
      simp only [Bool.and_eq_true, decide_eq_true_eq] at h1
      exact hup h1.1
    · exfalso
      simp only [Bool.and_eq_true, decide_eq_true_eq] at h2
      exact hdn ⟨h2.1.1, h2.1.2⟩
    · exfalso
      simp only [Bool.and_eq_true, decide_eq_true_eq] at h3
      exact h8' h3.1
    · rfl
    · exfalso
      apply h4
      simp only [Bool.and_eq_true, Bool.not_eq_true', decide_eq_true_eq, decide_eq_false_iff_not]
      exact ⟨⟨⟨⟨h8, h12⟩, h16⟩, h20⟩, hup⟩
    · exfalso
      apply h4
      simp only [Bool.and_eq_true, Bool.not_eq_true', decide_eq_true_eq, decide_eq_false_iff_not]
      exact ⟨⟨⟨⟨h8, h12⟩, h16⟩, h20⟩, hup⟩
  · intro lms hlen
    simp only [detectGesture]
    rw [if_pos hlen]

/-- Witness for the amended C4: a concrete plain fist frame is classified
`fist`, and a 1-landmark frame is classified `unknown`. -/
theorem C4_amended_witness_plain_fist :
    plainFistHand.length = 21 ∧
    (plainFistHand.getD 8 ⟨0, 0, 0⟩).y > (plainFistHand.getD 6 ⟨0, 0, 0⟩).y ∧
    ¬((plainFistHand.getD 4 ⟨0, 0, 0⟩).y < (plainFistHand.getD 6 ⟨0, 0, 0⟩).y) ∧
    ¬((plainFistHand.getD 4 ⟨0, 0, 0⟩).y > (plainFistHand.getD 3 ⟨0, 0, 0⟩).y ∧
      (plainFistHand.getD 4 ⟨0, 0, 0⟩).y > (plainFistHand.getD 9 ⟨0, 0, 0⟩).y) ∧
    detectGesture (some plainFistHand) = HandGesture.fist ∧
    ([⟨0, 1/2, 0⟩] : List Landmark).length < 21 ∧
    detectGesture (some [⟨0, 1/2, 0⟩]) = HandGesture.unknown :=
  ⟨rfl,
   by show (3 / 5 : ℚ) > 2 / 5; norm_num,
   by show ¬((1 / 2 : ℚ) < 2 / 5); norm_num,
   by show ¬((1 / 2 : ℚ) > 1 / 2 ∧ (1 / 2 : ℚ) > 1 / 2); norm_num,
   C4_amended_fist_classification.1 plainFistHand rfl
     (by show (3 / 5 : ℚ) > 2 / 5; norm_num)
     (by show (3 / 5 : ℚ) > 2 / 5; norm_num)
     (by show (3 / 5 : ℚ) > 2 / 5; norm_num)
     (by show (3 / 5 : ℚ) > 2 / 5; norm_num)
     (by show ¬((1 / 2 : ℚ) < 2 / 5); norm_num)
     (by show ¬((1 / 2 : ℚ) > 1 / 2 ∧ (1 / 2 : ℚ) > 1 / 2); norm_num),
   by norm_num,
   C4_amended_fist_classification.2 [⟨0, 1/2, 0⟩] (by norm_num)⟩

/-- Claim C5: the `part_000` classifier returns `unknown` whenever its input
is null, has fewer than 21 entries, or any landmark of the required subset
is missing or has a non-finite coordinate. -/
theorem C5_malformed_input_returns_unknown :
    ∀ landmarks : Option (List RawLandmark),
      (landmarks = none ∨
        ∃ lms, landmarks = some lms ∧
          (lms.length < 21 ∨ ∃ i ∈ requiredIndices, isLandmarkVisible (lms.get? i) = false)) →
      draftDetectGesture landmarks = DraftGesture.unknown := by
  intro landmarks h
  rcases h with h | ⟨lms, rfl, h⟩
  · rw [h]
    rfl
  · rcases h with hlen | ⟨i, hi, hvis⟩
    · simp only [draftDetectGesture]
      rw [if_pos hlen]
    · simp only [draftDetectGesture]
      by_cases hlen : lms.length < 21
      · rw [if_pos hlen]
      · rw [if_neg hlen, if_pos]
        simp only [Bool.not_eq_true']
        rw [List.all_eq_false]
        exact ⟨i, hi, by simpa using hvis⟩

/-- Witness for C5: a concrete 21-entry frame whose thumb tip has a
non-finite y is classified `unknown`. -/
theorem C5_witness_nonfinite_thumb :
    (some missingYHand = none ∨
      ∃ lms, some missingYHand = some lms ∧
        (lms.length < 21 ∨ ∃ i ∈ requiredIndices, isLandmarkVisible (lms.get? i) = false)) ∧
    draftDetectGesture (some missingYHand) = DraftGesture.unknown :=
  ⟨Or.inr ⟨missingYHand, rfl, Or.inr ⟨4, by decide, by decide⟩⟩,
   C5_malformed_input_returns_unknown (some missingYHand)
     (Or.inr ⟨missingYHand, rfl, Or.inr ⟨4, by decide, by decide⟩⟩)⟩

lemma trackCalibPosition_eq_lastGatedY (samples : List CalibFrame) :
    trackCalibPosition samples = lastGatedY samples := by
  induction samples using List.reverseRecOn with
  | nil => rfl
  | append_singleton l f ih =>
    unfold trackCalibPosition lastGatedY at *
    rw [List.foldl_append, List.filter_append, List.map_append]
    by_cases hf : f.gesture = HandGesture.fist
    · simp [hf, List.getLast?_concat]
    · simp only [List.foldl_cons, List.foldl_nil, if_neg hf]
      have hfilter : List.filter (fun f => f.gesture == HandGesture.fist) [f] = [] := by
        simp [hf]
      rw [hfilter, List.map_nil, List.append_nil]
      exact ih

/-- Claim C7, counterexample: with two fist-gated observations at y = 0.1
then y = 0.3, the hand-exit commit stores 0.3 — the last sample — while the
extremum (minimum) of the observed positions is 0.1. -/
theorem C7_counterexample_last_not_extremum :
    commitTopBoundary (trackCalibPosition
        [⟨HandGesture.fist, 1/10⟩, ⟨HandGesture.fist, 3/10⟩]) = some (3/10) ∧
    minGatedY [⟨HandGesture.fist, 1/10⟩, ⟨HandGesture.fist, 3/10⟩] = some (1/10) ∧
    (3/10 : ℚ) ≠ 1/10 := by
  refine ⟨?_, ?_, by norm_num⟩
  · norm_num [commitTopBoundary, trackCalibPosition]
  · norm_num [minGatedY, List.min?]

/-- Claim C7 as amended: the boundary committed on hand exit is the last
position observed while the control gesture (fist) was held — filtered
through the upper-half gate — not an extremum of the observed positions. -/
theorem C7_amended_last_gated_sample_committed :
    ∀ samples : List CalibFrame,
      trackCalibPosition samples = lastGatedY samples ∧
      commitTopBoundary (trackCalibPosition samples) =
        commitTopBoundary (lastGatedY samples) := by
  intro samples
  have h := trackCalibPosition_eq_lastGatedY samples
  exact ⟨h, by rw [h]⟩

lemma diffSum_ge (L : List CalibRange) (h : ∀ r ∈ L, r.max - r.min > 1 / 10) :
    (L.map CalibRange.max).sum - (L.map CalibRange.min).sum ≥ (L.length : ℚ) * (1 / 10) := by
  induction L with
  | nil => simp
  | cons a t ih =>
    have ha := h a (List.mem_cons_self a t)
    have ht := ih fun r hr => h r (List.mem_cons_of_mem a hr)
    simp only [List.map_cons, List.sum_cons, List.length_cons]
    push_cast
    linarith

/-- Claim C6: an invalid captured range (min not strictly below max, or span
at most 0.1) commits nothing — the active range and the history are exactly
as before; a valid capture appends to the history and sets the active range
to the member-wise arithmetic mean of the new history, and — provided every
prior history entry passed the same validation — the resulting active range
again satisfies `min < max` and `max - min > 0.1`. -/
theorem C6_finished_commit_validation :
    ∀ (captured : CalibRange) (s : CalibState),
      (¬(captured.min < captured.max ∧ captured.max - captured.min > 1 / 10) →
        commitCalibration captured s = s) ∧
      ((captured.min < captured.max ∧ captured.max - captured.min > 1 / 10) →
        (∀ r ∈ s.history, r.min < r.max ∧ r.max - r.min > 1 / 10) →
        (commitCalibration captured s).history = s.history ++ [captured] ∧
        (commitCalibration captured s).range =
          ⟨((s.history ++ [captured]).map CalibRange.min).sum /
             (((s.history ++ [captured]).length : ℕ) : ℚ),
           ((s.history ++ [captured]).map CalibRange.max).sum /
             (((s.history ++ [captured]).length : ℕ) : ℚ)⟩ ∧
        (commitCalibration captured s).range.min < (commitCalibration captured s).range.max ∧
        (commitCalibration captured s).range.max - (commitCalibration captured s).range.min >
          1 / 10) := by
  intro captured s
  constructor
  · intro h
    unfold commitCalibration
    rw [if_neg h]
  · intro hv hh
    unfold commitCalibration
    rw [if_pos hv]
    refine ⟨rfl, rfl, ?_, ?_⟩
    all_goals {
      have hlen : (((s.history ++ [captured]).length : ℕ) : ℚ) = (s.history.length : ℚ) + 1 := by
        push_cast [List.length_append]
        norm_num
      have hn : (0 : ℚ) < (s.history.length : ℚ) + 1 := by positivity
      have hsum : ((s.history ++ [captured]).map CalibRange.max).sum -
          ((s.history ++ [captured]).map CalibRange.min).sum >
          ((s.history.length : ℚ) + 1) * (1 / 10) := by
        have hd := diffSum_ge s.history fun r hr => (hh r hr).2
        simp only [List.map_append, List.sum_append, List.map_cons, List.map_nil,
          List.sum_cons, List.sum_nil]
        have := hv.2
        linarith
      have hkey : ((s.history ++ [captured]).map CalibRange.max).sum /
            (((s.history ++ [captured]).length : ℕ) : ℚ) -
          ((s.history ++ [captured]).map CalibRange.min).sum /
            (((s.history ++ [captured]).length : ℕ) : ℚ) > 1 / 10 := by
        rw [hlen, div_sub_div_same, gt_iff_lt, lt_div_iff₀ hn]
        linarith
      dsimp only
      linarith [hkey]
    }

/-- Witness for C6: committing the valid capture `(0.3, 0.7)` on top of the
one-entry history `[(0.2, 0.5)]` appends it and produces a valid averaged
range. -/
theorem C6_witness_valid_commit :
    ((3/10 : ℚ) < 7/10 ∧ (7/10 : ℚ) - 3/10 > 1/10) ∧
    (commitCalibration ⟨3/10, 7/10⟩ ⟨⟨0, 0⟩, [⟨1/5, 1/2⟩]⟩).history =
      [(⟨1/5, 1/2⟩ : CalibRange)] ++ [⟨3/10, 7/10⟩] ∧
    (commitCalibration ⟨3/10, 7/10⟩ ⟨⟨0, 0⟩, [⟨1/5, 1/2⟩]⟩).range.min <
      (commitCalibration ⟨3/10, 7/10⟩ ⟨⟨0, 0⟩, [⟨1/5, 1/2⟩]⟩).range.max ∧
    (commitCalibration ⟨3/10, 7/10⟩ ⟨⟨0, 0⟩, [⟨1/5, 1/2⟩]⟩).range.max -
      (commitCalibration ⟨3/10, 7/10⟩ ⟨⟨0, 0⟩, [⟨1/5, 1/2⟩]⟩).range.min > 1/10 :=
  ⟨⟨by norm_num, by norm_num⟩,
   ((C6_finished_commit_validation ⟨3/10, 7/10⟩ ⟨⟨0, 0⟩, [⟨1/5, 1/2⟩]⟩).2
      ⟨by norm_num, by norm_num⟩
      (by
        intro r hr
        simp only [List.mem_singleton] at hr
        subst hr
        exact ⟨by norm_num, by norm_num⟩)).1,
   ((C6_finished_commit_validation ⟨3/10, 7/10⟩ ⟨⟨0, 0⟩, [⟨1/5, 1/2⟩]⟩).2
      ⟨by norm_num, by norm_num⟩
      (by
        intro r hr
        simp only [List.mem_singleton] at hr
        subst hr
        exact ⟨by norm_num, by norm_num⟩)).2.2.1,
   ((C6_finished_commit_validation ⟨3/10, 7/10⟩ ⟨⟨0, 0⟩, [⟨1/5, 1/2⟩]⟩).2
      ⟨by norm_num, by norm_num⟩
      (by
        intro r hr
        simp only [List.mem_singleton] at hr
        subst hr
        exact ⟨by norm_num, by norm_num⟩)).2.2.2⟩

/-- Claim C8: for any fixed calibration range with span greater than 0.1,
the raw-y-to-paddle-pixel mapping is monotonically non-decreasing, and its
output always lies within `[PADDLE_HEIGHT/2, GAME_HEIGHT - PADDLE_HEIGHT/2]
= [60, 660]`. -/
theorem C8_map_monotone_and_bounded :
    ∀ rangeMin rangeMax : ℚ, rangeMax - rangeMin > 1 / 10 →
      (∀ y1 y2 : ℚ, y1 ≤ y2 →
        mapToPaddleY y1 rangeMin rangeMax ≤ mapToPaddleY y2 rangeMin rangeMax) ∧
      (∀ rawY : ℚ, 60 ≤ mapToPaddleY rawY rangeMin rangeMax ∧
        mapToPaddleY rawY rangeMin rangeMax ≤ 660) := by
  intro rangeMin rangeMax hspan
  have hpos : 0 < rangeMax - rangeMin := by linarith
  constructor
  · intro y1 y2 h12
    unfold mapToPaddleY
    dsimp only
    rw [if_pos hspan, if_pos hspan]
    have h600 : (0 : ℚ) ≤ GAME_HEIGHT - PADDLE_HEIGHT := by
      norm_num [GAME_HEIGHT, PADDLE_HEIGHT]
    have hdiv : (y1 - rangeMin) / (rangeMax - rangeMin) ≤
        (y2 - rangeMin) / (rangeMax - rangeMin) :=
      (div_le_div_iff_of_pos_right hpos).mpr (by linarith)
    have key : (y1 - rangeMin) / (rangeMax - rangeMin) * (GAME_HEIGHT - PADDLE_HEIGHT) +
        PADDLE_HEIGHT / 2 ≤
        (y2 - rangeMin) / (rangeMax - rangeMin) * (GAME_HEIGHT - PADDLE_HEIGHT) +
        PADDLE_HEIGHT / 2 := by
      have := mul_le_mul_of_nonneg_right hdiv h600
      linarith
    exact max_le_max le_rfl (min_le_min key le_rfl)
  · intro rawY
    unfold mapToPaddleY
    dsimp only
    constructor
    · refine le_trans ?_ (le_max_left _ _)
      norm_num [PADDLE_HEIGHT]
    · refine max_le (by norm_num [PADDLE_HEIGHT]) ?_
      refine le_trans (min_le_right _ _) ?_
      norm_num [GAME_HEIGHT, PADDLE_HEIGHT]

/-- Witness for C8: with the valid range `(0.2, 0.5)`, the mapping is
monotone on `0.3 ≤ 0.4` and the image of `0.9` lies within `[60, 660]`. -/
theorem C8_witness_valid_range :
    ((1/2 : ℚ) - 1/5 > 1/10) ∧
    mapToPaddleY (3/10) (1/5) (1/2) ≤ mapToPaddleY (2/5) (1/5) (1/2) ∧
    60 ≤ mapToPaddleY (9/10) (1/5) (1/2) ∧
    mapToPaddleY (9/10) (1/5) (1/2) ≤ 660 :=
  ⟨by norm_num,
   (C8_map_monotone_and_bounded (1/5) (1/2) (by norm_num)).1 (3/10) (2/5) (by norm_num),
   ((C8_map_monotone_and_bounded (1/5) (1/2) (by norm_num)).2 (9/10)).1,
   ((C8_map_monotone_and_bounded (1/5) (1/2) (by norm_num)).2 (9/10)).2⟩

lemma smoothStep_self (targetY dt : ℚ) : smoothStep targetY dt targetY = targetY := by
  unfold smoothStep
  norm_num

lemma smoothStep_dist_le (targetY dt prevY : ℚ)
    (hf0 : 0 ≤ 1 - min (PADDLE_SMOOTHING_FACTOR * dt * 60) 1) :
    |targetY - smoothStep targetY dt prevY| ≤
      (1 - min (PADDLE_SMOOTHING_FACTOR * dt * 60) 1) * |targetY - prevY| := by
  unfold smoothStep
  split_ifs with h
  · rw [sub_self, abs_zero]
    exact mul_nonneg hf0 (abs_nonneg _)
  · have hring : targetY - (prevY + (targetY - prevY) * min (PADDLE_SMOOTHING_FACTOR * dt * 60) 1) =
        (targetY - prevY) * (1 - min (PADDLE_SMOOTHING_FACTOR * dt * 60) 1) := by
      ring
    rw [hring, abs_mul, abs_of_nonneg hf0, mul_comm]

lemma smoothIter_dist_le (targetY dt c0 : ℚ)
    (hf0 : 0 ≤ 1 - min (PADDLE_SMOOTHING_FACTOR * dt * 60) 1) (n : ℕ) :
    |targetY - smoothIter targetY dt c0 n| ≤
      (1 - min (PADDLE_SMOOTHING_FACTOR * dt * 60) 1) ^ n * |targetY - c0| := by
  induction n with
  | zero => simp [smoothIter]
  | succ n ih =>
    have hstep := smoothStep_dist_le targetY dt (smoothIter targetY dt c0 n) hf0
    have hmul := mul_le_mul_of_nonneg_left ih hf0
    calc |targetY - smoothIter targetY dt c0 (n + 1)|
        = |targetY - smoothStep targetY dt (smoothIter targetY dt c0 n)| := rfl
      _ ≤ (1 - min (PADDLE_SMOOTHING_FACTOR * dt * 60) 1) *
            |targetY - smoothIter targetY dt c0 n| := hstep
      _ ≤ (1 - min (PADDLE_SMOOTHING_FACTOR * dt * 60) 1) *
            ((1 - min (PADDLE_SMOOTHING_FACTOR * dt * 60) 1) ^ n * |targetY - c0|) := hmul
      _ = (1 - min (PADDLE_SMOOTHING_FACTOR * dt * 60) 1) ^ (n + 1) * |targetY - c0| := by
            ring

/-- Claim C9: for every constant target and fixed `dt > 0`, iterating the
delta-time-normalized smoother makes the current position approach the
target monotonically (the absolute difference never increases), and after
finitely many steps the snap rule makes it exactly equal to the target,
where it stays. -/
theorem C9_smoothing_converges :
    ∀ targetY c0 dt : ℚ, 0 < dt →
      (∀ n : ℕ, |targetY - smoothIter targetY dt c0 (n + 1)| ≤
        |targetY - smoothIter targetY dt c0 n|) ∧
      (∃ N : ℕ, ∀ m : ℕ, N ≤ m → smoothIter targetY dt c0 m = targetY) := by
  intro targetY c0 dt hdt
  have hfpos : 0 < min (PADDLE_SMOOTHING_FACTOR * dt * 60) 1 := by
    refine lt_min ?_ (by norm_num)
    unfold PADDLE_SMOOTHING_FACTOR
    positivity
  have hf1 : min (PADDLE_SMOOTHING_FACTOR * dt * 60) 1 ≤ 1 := min_le_right _ _
  have hf0 : 0 ≤ 1 - min (PADDLE_SMOOTHING_FACTOR * dt * 60) 1 := by linarith
  have hflt1 : 1 - min (PADDLE_SMOOTHING_FACTOR * dt * 60) 1 < 1 := by linarith
  constructor
  · intro n
    have hstep := smoothStep_dist_le targetY dt (smoothIter targetY dt c0 n) hf0
    calc |targetY - smoothIter targetY dt c0 (n + 1)|
        ≤ (1 - min (PADDLE_SMOOTHING_FACTOR * dt * 60) 1) *
            |targetY - smoothIter targetY dt c0 n| := hstep
      _ ≤ 1 * |targetY - smoothIter targetY dt c0 n| :=
            mul_le_mul_of_nonneg_right (by linarith) (abs_nonneg _)
      _ = |targetY - smoothIter targetY dt c0 n| := one_mul _
  · obtain ⟨N, hN⟩ := exists_pow_lt_of_lt_one
      (show (0 : ℚ) < (1 / 2) / (|targetY - c0| + 1) by positivity) hflt1
    have hd0 : (0 : ℚ) ≤ |targetY - c0| := abs_nonneg _
    have hsmall : |targetY - smoothIter targetY dt c0 N| < 1 / 2 := by
      have h1 := smoothIter_dist_le targetY dt c0 hf0 N
      have h3 : (1 - min (PADDLE_SMOOTHING_FACTOR * dt * 60) 1) ^ N * |targetY - c0| ≤
          (1 - min (PADDLE_SMOOTHING_FACTOR * dt * 60) 1) ^ N * (|targetY - c0| + 1) :=
        mul_le_mul_of_nonneg_left (by linarith) (pow_nonneg hf0 N)
      have h4 : (1 - min (PADDLE_SMOOTHING_FACTOR * dt * 60) 1) ^ N * (|targetY - c0| + 1) <
          ((1 / 2) / (|targetY - c0| + 1)) * (|targetY - c0| + 1) :=
        mul_lt_mul_of_pos_right hN (by positivity)
      have h5 : ((1 / 2) / (|targetY - c0| + 1)) * (|targetY - c0| + 1) = 1 / 2 :=
        div_mul_cancel₀ _ (by positivity)
      linarith
    refine ⟨N + 1, ?_⟩
    have hbase : smoothIter targetY dt c0 (N + 1) = targetY := by
      show smoothStep targetY dt (smoothIter targetY dt c0 N) = targetY
      unfold smoothStep
      rw [if_pos hsmall]
    intro m hm
    induction m, hm using Nat.le_induction with
    | base => exact hbase
    | succ m hm ih =>
      show smoothStep targetY dt (smoothIter targetY dt c0 m) = targetY
      rw [ih]
      exact smoothStep_self targetY dt

/-- Witness for C9: with target 10, start 0 and `dt = 1/60`, the iteration
is monotone in distance and reaches the target exactly. -/
theorem C9_witness_concrete_convergence :
    (0 : ℚ) < 1 / 60 ∧
    ((∀ n : ℕ, |(10 : ℚ) - smoothIter 10 (1 / 60) 0 (n + 1)| ≤
        |(10 : ℚ) - smoothIter 10 (1 / 60) 0 n|) ∧
     (∃ N : ℕ, ∀ m : ℕ, N ≤ m → smoothIter 10 (1 / 60) 0 m = 10)) :=
  ⟨by norm_num, C9_smoothing_converges 10 0 (1 / 60) (by norm_num)⟩

/-- Witness for the amended C7: on the concrete two-sample fist sequence the
tracked value equals the last gated sample and the commit agrees with it. -/
theorem C7_amended_witness_two_samples :
    trackCalibPosition [⟨HandGesture.fist, 1/10⟩, ⟨HandGesture.fist, 3/10⟩] =
      lastGatedY [⟨HandGesture.fist, 1/10⟩, ⟨HandGesture.fist, 3/10⟩] ∧
    commitTopBoundary (trackCalibPosition
        [⟨HandGesture.fist, 1/10⟩, ⟨HandGesture.fist, 3/10⟩]) =
      commitTopBoundary (lastGatedY
        [⟨HandGesture.fist, 1/10⟩, ⟨HandGesture.fist, 3/10⟩]) :=
  C7_amended_last_gated_sample_committed [⟨HandGesture.fist, 1/10⟩, ⟨HandGesture.fist, 3/10⟩]
